import Mathlib

/-!
Verification of the streaming chat session pipeline of the knowledge-base
frontend: the chat session store (src/frontend/src/stores/chat.ts), the JWT
token-refresh response interceptor (src/frontend/src/api/client.ts), the
SSE-style streaming consumer (chatApi.streamMessage), and the logout path
(src/frontend/src/api/auth.ts together with the auth store).

The TypeScript sources are embedded shallowly.  The runtime is a
single-threaded event loop, so every synchronous segment between two `await`
points executes atomically; each such segment becomes a pure Lean function
from explicit state (plus the outcome of the awaited promise) to state.
Promise outcomes are passed in as explicit parameters of sum types.
-/

namespace KB

/-! ## Data model (src/frontend/src/types/index.ts) -/

/-- `ChatMessage` from the frontend type declarations.  Timestamps are kept
as opaque strings, ids as naturals (`Date.now()` values included). -/
structure ChatMessage where
  id : Nat
  role : String
  content : String
  is_deep_thought : Bool
  thinking_content : Option String
  tokens_used : Nat
  created_at : String
deriving DecidableEq

/-- `SendMessageRequest`: the optional `is_deep_thought` flag is `Option`
to mirror the `?:` field. -/
structure SendMessageRequest where
  message : String
  is_deep_thought : Option Bool
deriving DecidableEq

/-! ## Chat store (src/frontend/src/stores/chat.ts)

Only the refs that `sendMessage` touches are modelled: `currentSession`
(just its id), `messages`, `sending`, `error`, `streamingContent`. -/

structure ChatState where
  currentSession : Option Nat
  messages : List ChatMessage
  sending : Bool
  error : Option String
  streamingContent : String
deriving DecidableEq

/-- The provisional user message synthesized by `sendMessage` before the
request is issued: `id: Date.now()` (passed in as `now`), `role: 'user'`,
`is_deep_thought: data.is_deep_thought || false`, no thinking content,
zero tokens, current timestamp string. -/
def mkUserMessage (data : SendMessageRequest) (now : Nat) (nowIso : String) : ChatMessage :=
  { id := now
    role := "user"
    content := data.message
    is_deep_thought := data.is_deep_thought.getD false
    thinking_content := none
    tokens_used := 0
    created_at := nowIso }

/-- Outcome of the awaited `chatApi.sendMessage` call: the promise either
fulfills with a response envelope (whose `success` flag may be false), or
rejects with an error that optionally carries a server message. -/
inductive SendResult where
  | ok (success : Bool) (data : ChatMessage)
  | exn (serverMessage : Option String)
deriving DecidableEq

/-- Synchronous prefix of `sendMessage` (chat.ts lines 128-145), up to the
`await`: guard on `currentSession`, set `sending`, clear `error` and
`streamingContent`, push the optimistic user message.  The returned flag
says whether the send proceeds to the network call. -/
def sendPhase1 (s : ChatState) (data : SendMessageRequest) (now : Nat) (nowIso : String) :
    ChatState × Bool :=
  match s.currentSession with
  | none => (s, false)
  | some _ =>
    ({ s with
        sending := true
        error := none
        streamingContent := ""
        messages := s.messages ++ [mkUserMessage data now nowIso] }, true)

/-- Continuation of `sendMessage` after the `await` (chat.ts lines 148-162):
on a successful envelope push the reply; on `success: false` just return
false; on a rejection set `error` and pop the optimistic message; the
`finally` clears `sending` in every case. -/
def sendPhase2 (s : ChatState) (result : SendResult) : ChatState × Bool :=
  match result with
  | .ok true reply => ({ s with messages := s.messages ++ [reply], sending := false }, true)
  | .ok false _ => ({ s with sending := false }, false)
  | .exn serverMessage =>
    ({ s with
        error := some (serverMessage.getD "Failed to send message")
        messages := s.messages.dropLast
        sending := false }, false)

/-- One complete `sendMessage` call, with the outcome of the awaited
network request supplied explicitly. -/
def sendMessage (s : ChatState) (data : SendMessageRequest) (now : Nat) (nowIso : String)
    (result : SendResult) : ChatState × Bool :=
  let step := sendPhase1 s data now nowIso
  if step.2 then sendPhase2 step.1 result else (step.1, false)

/-! ## Token store and logout (client.ts lines 26-46, auth.ts lines 59-66,
auth store `logout`) -/

/-- The two localStorage slots behind `getAccessToken` / `getRefreshToken`. -/
structure TokenState where
  access_token : Option String
  refresh_token : Option String
deriving DecidableEq

/-- `clearTokens`: removes both storage keys. -/
def clearTokens (_t : TokenState) : TokenState := ⟨none, none⟩

/-- `setTokens`: writes both storage keys. -/
def setTokens (a r : String) (_t : TokenState) : TokenState := ⟨some a, some r⟩

/-- Outcome of an awaited HTTP request: fulfilled with a `success` flag, or
rejected (network failure, HTTP error surfaced by the interceptor chain). -/
inductive ReqOutcome where
  | fulfilled (success : Bool)
  | rejected
deriving DecidableEq

/-- `authApi.logout`: `try { await post('/auth/logout') } finally
{ clearTokens() }` — the tokens are cleared whichever way the request
settles, and the outcome is then returned or re-thrown unchanged. -/
def authApiLogout (t : TokenState) (outcome : ReqOutcome) : TokenState × ReqOutcome :=
  (clearTokens t, outcome)

/-- Auth-store state: the token slots plus the `user` ref (kept abstract as
an optional username). -/
structure AuthState where
  tokens : TokenState
  user : Option String
deriving DecidableEq

/-- `useAuthStore.logout`: `try { await authApi.logout() } finally
{ user.value = null; clearTokens() }`. -/
def storeLogout (s : AuthState) (outcome : ReqOutcome) : AuthState :=
  let inner := authApiLogout s.tokens outcome
  { tokens := clearTokens inner.1, user := none }

/-! ## Token-refresh response interceptor (client.ts lines 48-139)

Module-level mutable state: `isRefreshing`, `refreshSubscribers`, the token
storage, and (as an observable effect) the `window.location.href = '/login'`
redirect.  The interceptor body for one 401 response runs synchronously up
to the `await axios.post('/auth/refresh', ...)`; the code after that await
is modelled as `completeRefresh`, parameterized by the refresh outcome. -/

structure InterceptorState where
  tokens : TokenState
  isRefreshing : Bool
  /-- Ids of the requests whose continuations sit in `refreshSubscribers`,
  in subscription order. -/
  refreshSubscribers : List Nat
  redirectedToLogin : Bool
deriving DecidableEq

/-- A request config as the interceptor sees it: its id (to track the
promise), its url, and the `_retry` marker. -/
structure Request where
  id : Nat
  url : String
  retryFlag : Bool
deriving DecidableEq

/-- Bool-valued substring test, used for `url?.includes('/auth/refresh')`. -/
def listContainsSub (hay needle : List Char) : Bool :=
  match hay with
  | [] => needle.isEmpty
  | _ :: t => needle.isPrefixOf hay || listContainsSub t needle

def urlIncludesAuthRefresh (u : String) : Bool :=
  listContainsSub u.toList "/auth/refresh".toList

/-- What the interceptor does with one failed response, as seen by the
request's caller: the error propagates (`Promise.reject`), the continuation
is parked in `refreshSubscribers` (`enqueued`), or this request starts the
refresh call itself (carrying the request now marked `_retry`). -/
inductive RespAction where
  | propagate
  | enqueued
  | startRefresh (marked : Request)
deriving DecidableEq

/-- Synchronous part of the response-error interceptor (client.ts lines
78-105) for a response with the given HTTP status.  Mirrors, in order: the
`status === 401 && !_retry` guard, the missing-refresh-token /
refresh-url-itself branch (clear tokens, redirect, reject), the
`isRefreshing` branch (subscribe), and otherwise `_retry := true;
isRefreshing := true` before issuing the refresh call. -/
def responseInterceptor (s : InterceptorState) (status : Nat) (req : Request) :
    InterceptorState × RespAction :=
  if status = 401 && !req.retryFlag then
    if s.tokens.refresh_token = none || urlIncludesAuthRefresh req.url then
      ({ s with tokens := clearTokens s.tokens, redirectedToLogin := true }, .propagate)
    else if s.isRefreshing then
      ({ s with refreshSubscribers := s.refreshSubscribers ++ [req.id] }, .enqueued)
    else
      ({ s with isRefreshing := true }, .startRefresh { req with retryFlag := true })
  else (s, .propagate)

/-- Outcome of the awaited `axios.post('/auth/refresh', ...)`. -/
inductive RefreshResult where
  | success (access_token refresh_token : String)
  | failure
deriving DecidableEq

/-- Observable settlement of one request's promise after the refresh
completes: re-issued with a bearer token attached, or rejected. -/
inductive Delivery where
  | reissue (id : Nat) (token : String)
  | rejected (id : Nat)
deriving DecidableEq

/-- `onTokenRefreshed` (client.ts lines 56-59): invoke every queued
continuation with the new token — each re-issues its original request with
`Authorization: Bearer token` — then empty the subscriber list. -/
def onTokenRefreshed (s : InterceptorState) (token : String) :
    InterceptorState × List Delivery :=
  ({ s with refreshSubscribers := [] },
   s.refreshSubscribers.map (fun i => Delivery.reissue i token))

/-- Continuation of the refresh-initiating interceptor run after the
`await` (client.ts lines 118-134).  Success: store the new pair, drop the
flag, flush subscribers, re-issue the initiator with the new access token.
Failure (`catch`): drop the flag, clear tokens, redirect, reject the
initiator — the subscriber list is NOT touched by this branch. -/
def completeRefresh (s : InterceptorState) (initiator : Request) :
    RefreshResult → InterceptorState × List Delivery
  | .success a r =>
    let s1 := { s with tokens := setTokens a r s.tokens, isRefreshing := false }
    let flush := onTokenRefreshed s1 a
    (flush.1, flush.2 ++ [Delivery.reissue initiator.id a])
  | .failure =>
    ({ s with
        isRefreshing := false
        tokens := clearTokens s.tokens
        redirectedToLogin := true }, [Delivery.rejected initiator.id])

/-- Run the synchronous interceptor prefix for a batch of 401 responses in
arrival order, returning the final state, the number of refresh calls
started, and the (first) refresh-initiating marked request if any. -/
def handleAll (s : InterceptorState) (reqs : List Request) :
    InterceptorState × Nat × Option Request :=
  match reqs with
  | [] => (s, 0, none)
  | req :: rest =>
    let step := responseInterceptor s 401 req
    let tail := handleAll step.1 rest
    match step.2 with
    | .startRefresh marked => (tail.1, tail.2.1 + 1, some marked)
    | _ => (tail.1, tail.2.1, tail.2.2)

structure ScenarioResult where
  final : InterceptorState
  refreshCalls : Nat
  deliveries : List Delivery
deriving DecidableEq

/-- Full scenario: starting from quiescent interceptor state with the given
stored tokens, N requests each receive a 401 (the synchronous parts run in
arrival order, as the event loop guarantees); then, if a refresh call was
started, it completes with the given outcome. -/
def runConcurrent401s (tokens : TokenState) (reqs : List Request) (res : RefreshResult) :
    ScenarioResult :=
  let s0 : InterceptorState := ⟨tokens, false, [], false⟩
  let h := handleAll s0 reqs
  match h.2.2 with
  | some initiator =>
    let c := completeRefresh h.1 initiator res
    ⟨c.1, h.2.1, c.2⟩
  | none => ⟨h.1, h.2.1, []⟩

/-! ## JSON values and `JSON.parse` (platform builtin used by the streaming
consumer)

`JSON.parse` is a host builtin, so it is modelled here: a standard
recursive-descent parser over a char list, fuelled for termination.
Modelling simplifications (none is reachable from the concrete inputs used
below): numbers are integers (no fraction/exponent), `\u` escapes are not
decoded, and duplicate object keys resolve to the first occurrence. -/

inductive Json where
  | null
  | bool (b : Bool)
  | num (n : Int)
  | str (s : String)
  | arr (elems : List Json)
  | obj (fields : List (String × Json))

/-- Skip JSON whitespace. -/
def skipWs : List Char → List Char
  | [] => []
  | c :: rest => if c = ' ' || c = '\t' || c = '\n' || c = '\r' then skipWs rest else c :: rest

/-- Escape table for JSON string literals (`\uXXXX` is left unsupported:
a payload using it fails to parse in this model and falls back to the
raw-chunk branch, which no concrete input below exercises). -/
def escapeTable : List (Char × Char) :=
  [('\"', '\"'), ('\\', '\\'), ('/', '/'), ('n', '\n'), ('t', '\t'), ('r', '\r'),
   ('b', Char.ofNat 8), ('f', Char.ofNat 12)]

/-- Decode one character escape inside a JSON string literal. -/
def escapeChar (c : Char) : Option Char :=
  escapeTable.lookup c

/-- Parse the body of a JSON string literal, after the opening quote;
returns the decoded characters and the remainder after the closing quote. -/
def parseStringBody : List Char → Option (List Char × List Char)
  | [] => none
  | '\\' :: e :: rest =>
    match escapeChar e with
    | none => none
    | some ec => (parseStringBody rest).map (fun p => (ec :: p.1, p.2))
  | c :: rest =>
    if c = '\"' then some ([], rest)
    else (parseStringBody rest).map (fun p => (c :: p.1, p.2))

def digitsToNat (ds : List Char) : Nat :=
  ds.foldl (fun acc d => acc * 10 + (d.toNat - 48)) 0

/-- Parse an (integer) JSON number token. -/
def parseNumberToken (cs : List Char) : Option (Json × List Char) :=
  match cs with
  | '-' :: rest =>
    let p := rest.span (fun c => c.isDigit)
    if p.1.isEmpty then none else some (.num (-(digitsToNat p.1 : Int)), p.2)
  | _ =>
    let p := cs.span (fun c => c.isDigit)
    if p.1.isEmpty then none else some (.num (digitsToNat p.1), p.2)

mutual

def parseValue : Nat → List Char → Option (Json × List Char)
  | 0, _ => none
  | fuel + 1, cs =>
    let t := skipWs cs
    if ("null".toList).isPrefixOf t then some (.null, t.drop 4)
    else if ("true".toList).isPrefixOf t then some (.bool true, t.drop 4)
    else if ("false".toList).isPrefixOf t then some (.bool false, t.drop 5)
    else
      match t with
      | '\"' :: rest => (parseStringBody rest).map (fun p => (.str (String.mk p.1), p.2))
      | '[' :: rest =>
        match skipWs rest with
        | ']' :: rest2 => some (.arr [], rest2)
        | rest2 => parseElems fuel rest2 []
      | '\x7b' :: rest =>
        match skipWs rest with
        | '\x7d' :: rest2 => some (.obj [], rest2)
        | rest2 => parseFields fuel rest2 []
      | other => parseNumberToken other

def parseElems : Nat → List Char → List Json → Option (Json × List Char)
  | 0, _, _ => none
  | fuel + 1, cs, acc =>
    match parseValue fuel cs with
    | none => none
    | some (v, rest) =>
      match skipWs rest with
      | ',' :: rest2 => parseElems fuel rest2 (acc ++ [v])
      | ']' :: rest2 => some (.arr (acc ++ [v]), rest2)
      | _ => none

def parseFields : Nat → List Char → List (String × Json) → Option (Json × List Char)
  | 0, _, _ => none
  | fuel + 1, cs, acc =>
    match skipWs cs with
    | '\"' :: rest =>
      match parseStringBody rest with
      | none => none
      | some (key, rest2) =>
        match skipWs rest2 with
        | ':' :: rest3 =>
          match parseValue fuel rest3 with
          | none => none
          | some (v, rest4) =>
            match skipWs rest4 with
            | ',' :: rest5 => parseFields fuel rest5 (acc ++ [(String.mk key, v)])
            | '\x7d' :: rest5 => some (.obj (acc ++ [(String.mk key, v)]), rest5)
            | _ => none
        | _ => none
    | _ => none

end

/-- `JSON.parse` on the characters of the payload: a parse succeeds only if
it consumes the whole input up to trailing whitespace. -/
def jsonParse (cs : List Char) : Option Json :=
  match parseValue (2 * cs.length + 2) cs with
  | some (v, rest) => if (skipWs rest).isEmpty then some v else none
  | none => none

/-- JavaScript property access `j.key`: defined only on objects, `none`
plays the role of `undefined`. -/
def getField (j : Json) (key : String) : Option Json :=
  match j with
  | .obj fields => fields.lookup key
  | _ => none

/-- JavaScript truthiness of a JSON value (`null`, `false`, `0` and `""`
are falsy; arrays and objects are truthy). -/
def Json.truthy : Json → Bool
  | .null => false
  | .bool b => b
  | .num n => n != 0
  | .str s => !s.isEmpty
  | .arr _ => true
  | .obj _ => true

/-! ## Streaming consumer (`chatApi.streamMessage`)

The read loop is embedded over char lists: decoded text chunks arrive one
at a time, a trailing partial line is carried in `buffer`, and the three
callbacks become an event trace. -/

/-- One observable callback invocation: `onChunk(payload)`,
`onDone(message)`, or `onError(err)` (err's `name` and `message`). -/
inductive StreamEvent where
  | chunk (payload : Json)
  | doneMsg (message : Json)
  | errorEv (name message : String)

/-- The `if (parsed.content) onChunk(parsed.content)` step for one parsed
payload. -/
def contentEvents (parsed : Json) : List StreamEvent :=
  match getField parsed "content" with
  | some c => if c.truthy then [StreamEvent.chunk c] else []
  | none => []

/-- The `if (parsed.done && parsed.message) onDone(parsed.message)` step. -/
def doneEvents (parsed : Json) : List StreamEvent :=
  match getField parsed "done", getField parsed "message" with
  | some d, some m => if d.truthy && m.truthy then [StreamEvent.doneMsg m] else []
  | _, _ => []

/-- Handling of the payload of one complete `data: `-prefixed line
(`line.slice(6)`): the `[DONE]` sentinel emits nothing; a payload that
parses fires the content and done branches in that order; a payload that
fails to parse is forwarded verbatim to `onChunk`. -/
def dataEvents (data : List Char) : List StreamEvent :=
  if data = "[DONE]".toList then []
  else
    match jsonParse data with
    | some parsed => contentEvents parsed ++ doneEvents parsed
    | none => [StreamEvent.chunk (Json.str (String.mk data))]

/-- Handling of one complete line: only `data: `-prefixed lines carry
payload. -/
def processLine (line : List Char) : List StreamEvent :=
  if ("data: ".toList).isPrefixOf line then dataEvents (line.drop 6) else []

/-- JavaScript `s.split('\n')`: the result always has one more entry than
the number of newlines, so it is never empty. -/
def splitLines (cs : List Char) : List (List Char) :=
  match cs with
  | [] => [[]]
  | c :: rest =>
    let r := splitLines rest
    if c = '\n' then [] :: r
    else
      match r with
      | h :: t => (c :: h) :: t
      | [] => [[c]]

/-- One iteration of the read loop (router/index.ts lines 201-229):
`buffer += chunk; lines = buffer.split('\n'); buffer = lines.pop() || ''`,
then process each remaining complete line in order. -/
def feedChunk (buffer chunk : List Char) : List Char × List StreamEvent :=
  let lines := splitLines (buffer ++ chunk)
  (lines.getLastD [], (lines.dropLast.map processLine).flatten)

/-- The whole read loop over a list of decoded chunks, threading the
partial-line buffer and concatenating the emitted events in order. -/
def runStreamAux : List Char → List String → List Char × List StreamEvent
  | buf, [] => (buf, [])
  | buf, c :: rest =>
    let step := feedChunk buf c.toList
    let tail := runStreamAux step.1 rest
    (tail.1, step.2 ++ tail.2)

def runStream (chunks : List String) : List Char × List StreamEvent :=
  runStreamAux [] chunks

/-- A rejection reaching the trailing `.catch` of `streamMessage`: a
JavaScript error with its `name` and `message`. -/
structure StreamFailure where
  name : String
  message : String
deriving DecidableEq

/-- The `.catch` handler (router/index.ts lines 230-234): `onError` fires
unless the rejection is the `AbortError` produced by cancellation. -/
def catchHandler (e : StreamFailure) : List StreamEvent :=
  if e.name != "AbortError" then [StreamEvent.errorEv e.name e.message] else []

/-- The rejection produced when the returned handle is invoked:
`controller.abort()` makes the in-flight fetch/read reject with a
`DOMException` whose `name` is `AbortError` (platform semantics of
`AbortController`, wired in via `signal: controller.signal`). -/
def abortFailure : StreamFailure :=
  ⟨"AbortError", "The user aborted a request."⟩

/-- Events of a whole `streamMessage` run: the chunks read before the
promise chain settles, then — if it settled by rejection — the `.catch`
handler's contribution. -/
def runStreamWith (chunks : List String) (failure : Option StreamFailure) : List StreamEvent :=
  (runStream chunks).2 ++
    match failure with
    | some e => catchHandler e
    | none => []

/-! ## Theorems -/

/-- Claim C10: logout always clears both stored tokens and resets the user
to `null`, whether the POST /auth/logout request fulfills (with any
`success` flag) or rejects: both `authApi.logout` and the store's `logout`
clear in `finally` blocks, which run on every settlement path. -/
theorem logout_always_clears (s : AuthState) (outcome : ReqOutcome) :
    storeLogout s outcome = ⟨⟨none, none⟩, none⟩ := rfl

/-- Claim C3, counterexample to the claim as stated: with an active session
and an empty pre-call message list, a send whose request fulfills with
`success: false` settles with failure, yet the message list is NOT equal to
the pre-call list — the provisional (client-generated) user message
remains — and the error field is NOT set. -/
theorem sendMessage_api_failure_keeps_provisional :
    (sendMessage ⟨some 1, [], false, none, ""⟩ ⟨"hi", none⟩ 100 "t"
        (.ok false (mkUserMessage ⟨"x", none⟩ 0 ""))).2 = false ∧
    (sendMessage ⟨some 1, [], false, none, ""⟩ ⟨"hi", none⟩ 100 "t"
        (.ok false (mkUserMessage ⟨"x", none⟩ 0 ""))).1.messages
      = [mkUserMessage ⟨"hi", none⟩ 100 "t"] ∧
    (sendMessage ⟨some 1, [], false, none, ""⟩ ⟨"hi", none⟩ 100 "t"
        (.ok false (mkUserMessage ⟨"x", none⟩ 0 ""))).1.error = none := by
  exact ⟨rfl, rfl, rfl⟩

/-- Claim C3 (amended): for a `sendMessage` call with an active session —
on a fulfilled request with `success: true`, the list grows by exactly the
provisional user message and the server reply (length +2); on a rejected
request, the list equals the pre-call list and the error field is set; on
a fulfilled request with `success: false`, the provisional user message
remains (length +1) and the error field stays clear. -/
theorem sendMessage_settles (s : ChatState) (data : SendMessageRequest)
    (now : Nat) (nowIso : String) (sid : Nat)
    (h : s.currentSession = some sid) :
    (∀ reply, sendMessage s data now nowIso (.ok true reply)
      = ({ s with
            sending := false
            error := none
            streamingContent := ""
            messages := s.messages ++ [mkUserMessage data now nowIso, reply] }, true)) ∧
    (∀ em, sendMessage s data now nowIso (.exn em)
      = ({ s with
            sending := false
            error := some (em.getD "Failed to send message")
            streamingContent := ""
            messages := s.messages }, false)) ∧
    (∀ reply, sendMessage s data now nowIso (.ok false reply)
      = ({ s with
            sending := false
            error := none
            streamingContent := ""
            messages := s.messages ++ [mkUserMessage data now nowIso] }, false)) := by
  refine ⟨fun reply => ?_, fun em => ?_, fun reply => ?_⟩ <;>
    simp [sendMessage, sendPhase1, sendPhase2, h]

/-- Witness for `sendMessage_settles` at a concrete state and request. -/
theorem sendMessage_settles_witness :
    sendMessage ⟨some 1, [], false, none, ""⟩ ⟨"hi", none⟩ 100 "t"
        (.exn (some "boom"))
      = (⟨some 1, [], false, some "boom", ""⟩, false) ∧
    sendMessage ⟨some 1, [], false, none, ""⟩ ⟨"hi", none⟩ 100 "t"
        (.ok true (mkUserMessage ⟨"re", none⟩ 7 "t2"))
      = (⟨some 1, [mkUserMessage ⟨"hi", none⟩ 100 "t", mkUserMessage ⟨"re", none⟩ 7 "t2"],
          false, none, ""⟩, true) :=
  ⟨(sendMessage_settles ⟨some 1, [], false, none, ""⟩ ⟨"hi", none⟩ 100 "t" 1 rfl).2.1
      (some "boom"),
   (sendMessage_settles ⟨some 1, [], false, none, ""⟩ ⟨"hi", none⟩ 100 "t" 1 rfl).1
      (mkUserMessage ⟨"re", none⟩ 7 "t2")⟩

/-- Claim C4, counterexample to the claim as stated: with a first
`sendMessage` call in flight (`sending = true` after its synchronous
prefix), a second `sendMessage` call still mutates the same session's
message list — its synchronous prefix appends a second provisional
message; nothing checks the `sending` flag. -/
theorem sendMessage_no_mutual_exclusion :
    (sendPhase1 ⟨some 1, [], false, none, ""⟩ ⟨"hi", none⟩ 100 "t1").1.sending = true ∧
    (sendPhase1 (sendPhase1 ⟨some 1, [], false, none, ""⟩ ⟨"hi", none⟩ 100 "t1").1
        ⟨"again", none⟩ 200 "t2").1.messages
      ≠ (sendPhase1 ⟨some 1, [], false, none, ""⟩ ⟨"hi", none⟩ 100 "t1").1.messages := by
  decide

/-- Claim C4 (amended): `sendMessage` sets `sending := true` for the
duration of the in-flight request and resets it to `false` when the call
settles, but it never checks `sending`: its synchronous prefix appends the
provisional message whatever the current value of `sending`, so mutual
exclusion of sends is not enforced by the store. -/
theorem sendMessage_sending_flag (s : ChatState) (data : SendMessageRequest)
    (now : Nat) (nowIso : String) (sid : Nat)
    (h : s.currentSession = some sid) :
    (sendPhase1 s data now nowIso).1.sending = true ∧
    (sendPhase1 s data now nowIso).1.messages
      = s.messages ++ [mkUserMessage data now nowIso] ∧
    (∀ s' result, (sendPhase2 s' result).1.sending = false) := by
  refine ⟨?_, ?_, fun s' result => ?_⟩
  · simp [sendPhase1, h]
  · simp [sendPhase1, h]
  · cases result with
    | ok success d => cases success <;> simp [sendPhase2]
    | exn em => simp [sendPhase2]

/-- Witness for `sendMessage_sending_flag`, at a state whose `sending`
flag is already `true` (a first send in flight). -/
theorem sendMessage_sending_flag_witness :
    (sendPhase1 ⟨some 1, [mkUserMessage ⟨"hi", none⟩ 100 "t1"], true, none, ""⟩
        ⟨"again", none⟩ 200 "t2").1.sending = true ∧
    (sendPhase1 ⟨some 1, [mkUserMessage ⟨"hi", none⟩ 100 "t1"], true, none, ""⟩
        ⟨"again", none⟩ 200 "t2").1.messages
      = [mkUserMessage ⟨"hi", none⟩ 100 "t1"] ++ [mkUserMessage ⟨"again", none⟩ 200 "t2"] ∧
    (∀ s' result, (sendPhase2 s' result).1.sending = false) :=
  sendMessage_sending_flag ⟨some 1, [mkUserMessage ⟨"hi", none⟩ 100 "t1"], true, none, ""⟩
    ⟨"again", none⟩ 200 "t2" 1 rfl

/-- Claim C7: feeding the consumer `"data: {"content":"Hel"` and then
`"lo"}\n"` (braces escaped here) across two reads yields exactly one
`onChunk("Hello")` — after the first read the whole partial line sits in
the buffer and nothing has fired; the second read completes the line. -/
theorem stream_partial_line_buffering :
    runStream ["data: \x7b\"content\":\"Hel", "lo\"\x7d\n"]
      = ([], [StreamEvent.chunk (Json.str "Hello")]) ∧
    runStream ["data: \x7b\"content\":\"Hel"]
      = ("data: \x7b\"content\":\"Hel".toList, []) := ⟨rfl, rfl⟩

/-- Claim C8: feeding `"data: [DONE]\n"` alone fires neither `onChunk` nor
`onDone`, leaves the buffer empty, and (with the promise chain settling
normally) produces no error event. -/
theorem stream_done_sentinel_silent :
    runStreamWith ["data: [DONE]\n"] none = [] ∧
    runStream ["data: [DONE]\n"] = ([], []) := ⟨rfl, rfl⟩

/-- Claim C2: evidence of the divergence.  Two concurrent 401s with a
stored refresh token, refresh fails: the tokens are cleared and the client
redirects (the claim's first half holds), but the only settled promise is
the initiating request's rejection — request 2's continuation is still
sitting in `refreshSubscribers`, never invoked and never rejected, so its
caller never observes a failure.  The `catch` branch of the refresh neither
flushes nor clears the subscriber list. -/
theorem refresh_failure_leaves_queued_pending :
    runConcurrent401s ⟨some "at", some "rt"⟩
        [⟨1, "/api/a", false⟩, ⟨2, "/api/b", false⟩] .failure
      = ⟨⟨⟨none, none⟩, false, [2], true⟩, 1, [Delivery.rejected 1]⟩ := rfl

/-- Helper: a 401 arriving while a refresh is in flight (and a refresh
token is stored, the request is not `_retry`-marked and is not the refresh
call) subscribes the request's continuation — appending its id once — and
changes nothing else. -/
theorem responseInterceptor_enqueues (s : InterceptorState) (q : Request)
    (h1 : s.isRefreshing = true) (hq : q.retryFlag = false)
    (h2 : s.tokens.refresh_token ≠ none) (hu : urlIncludesAuthRefresh q.url = false) :
    responseInterceptor s 401 q
      = ({ s with refreshSubscribers := s.refreshSubscribers ++ [q.id] }, .enqueued) := by
  simp [responseInterceptor, hq, h1, h2, hu]

/-- Helper: a 401 arriving with no refresh in flight (same side conditions)
marks the request `_retry`, raises `isRefreshing` and starts the refresh
call. -/
theorem responseInterceptor_starts (s : InterceptorState) (q : Request)
    (h1 : s.isRefreshing = false) (hq : q.retryFlag = false)
    (h2 : s.tokens.refresh_token ≠ none) (hu : urlIncludesAuthRefresh q.url = false) :
    responseInterceptor s 401 q
      = ({ s with isRefreshing := true }, .startRefresh { q with retryFlag := true }) := by
  simp [responseInterceptor, hq, h1, h2, hu]

/-- Helper: a 401 on a request already marked `_retry` passes straight
through to the caller. -/
theorem responseInterceptor_retry_propagates (s : InterceptorState) (q : Request)
    (hq : q.retryFlag = true) :
    responseInterceptor s 401 q = (s, .propagate) := by
  simp [responseInterceptor, hq]

/-- Helper: while `isRefreshing` holds, a whole batch of 401s (all
unmarked, none the refresh call, refresh token still stored) only ever
subscribes — no further refresh call starts and the ids queue up in
order. -/
theorem handleAll_refreshing (reqs : List Request) :
    ∀ s : InterceptorState, s.isRefreshing = true →
      s.tokens.refresh_token ≠ none →
      (∀ q ∈ reqs, q.retryFlag = false ∧ urlIncludesAuthRefresh q.url = false) →
      handleAll s reqs
        = ({ s with
              refreshSubscribers := s.refreshSubscribers ++ reqs.map (fun q => q.id) },
           0, none) := by
  induction reqs with
  | nil =>
    intro s _ _ _
    simp [handleAll]
  | cons q rest ih =>
    intro s h1 h2 h3
    obtain ⟨hq, hu⟩ := h3 q (List.mem_cons_self q rest)
    have hstep := responseInterceptor_enqueues s q h1 hq h2 hu
    have htail := ih { s with refreshSubscribers := s.refreshSubscribers ++ [q.id] }
      h1 h2 (fun p hp => h3 p (List.mem_cons_of_mem q hp))
    simp only [handleAll, hstep, htail]
    simp [List.append_assoc]

/-- Helper: full computation of the N-concurrent-401 scenario when the
refresh succeeds: one refresh call, every queued continuation re-issued
with the new access token, then the initiator, and the new pair stored. -/
theorem runConcurrent401s_success (tokens : TokenState) (rt a r : String)
    (q0 : Request) (rest : List Request)
    (hrt : tokens.refresh_token = some rt)
    (hok : ∀ q ∈ q0 :: rest, q.retryFlag = false ∧ urlIncludesAuthRefresh q.url = false) :
    runConcurrent401s tokens (q0 :: rest) (.success a r)
      = ⟨⟨⟨some a, some r⟩, false, [], false⟩, 1,
         (rest.map (fun q => q.id)).map (fun i => Delivery.reissue i a)
           ++ [Delivery.reissue q0.id a]⟩ := by
  obtain ⟨hq0, hu0⟩ := hok q0 (List.mem_cons_self q0 rest)
  have hne : (⟨tokens, false, [], false⟩ : InterceptorState).tokens.refresh_token ≠ none := by
    simp [hrt]
  have hstep := responseInterceptor_starts ⟨tokens, false, [], false⟩ q0 rfl hq0 hne hu0
  have htail := handleAll_refreshing rest
    { (⟨tokens, false, [], false⟩ : InterceptorState) with isRefreshing := true }
    rfl hne (fun p hp => hok p (List.mem_cons_of_mem q0 hp))
  simp only [runConcurrent401s, handleAll, hstep, htail]
  simp [completeRefresh, onTokenRefreshed, setTokens]

/-- Claim C1: for any batch of N ≥ 1 concurrent requests that each receive
a 401 while a refresh token is stored, none marked `_retry` (and none being
the refresh call itself — in this client the refresh request is issued
through bare `axios`, not through `apiClient`, so it never reaches this
interceptor), exactly one refresh call is issued; and when that refresh
succeeds, every one of the N requests is re-issued with the new access
token attached, and the new token pair is stored. -/
theorem refresh_single_flight (tokens : TokenState) (rt a r : String)
    (reqs : List Request)
    (hrt : tokens.refresh_token = some rt)
    (hne : reqs ≠ [])
    (hok : ∀ q ∈ reqs, q.retryFlag = false ∧ urlIncludesAuthRefresh q.url = false) :
    (runConcurrent401s tokens reqs (.success a r)).refreshCalls = 1 ∧
    (∀ q ∈ reqs,
      Delivery.reissue q.id a ∈ (runConcurrent401s tokens reqs (.success a r)).deliveries) ∧
    (runConcurrent401s tokens reqs (.success a r)).final.tokens = ⟨some a, some r⟩ := by
  match reqs, hne with
  | q0 :: rest, _ =>
    rw [runConcurrent401s_success tokens rt a r q0 rest hrt hok]
    refine ⟨rfl, ?_, rfl⟩
    intro q hq
    rcases List.mem_cons.mp hq with hq | hq
    · subst hq
      exact List.mem_append_right _ (List.mem_singleton.mpr rfl)
    · refine List.mem_append_left _ ?_
      simp only [List.map_map]
      exact List.mem_map.mpr ⟨q, hq, rfl⟩

/-- Witness for `refresh_single_flight`: two concurrent 401s, refresh
token `"rt"` stored, refresh succeeds with a new pair. -/
theorem refresh_single_flight_witness :
    (runConcurrent401s ⟨some "at", some "rt"⟩
        [⟨1, "/api/a", false⟩, ⟨2, "/api/b", false⟩] (.success "na" "nr")).refreshCalls = 1 ∧
    Delivery.reissue 1 "na" ∈ (runConcurrent401s ⟨some "at", some "rt"⟩
        [⟨1, "/api/a", false⟩, ⟨2, "/api/b", false⟩] (.success "na" "nr")).deliveries ∧
    Delivery.reissue 2 "na" ∈ (runConcurrent401s ⟨some "at", some "rt"⟩
        [⟨1, "/api/a", false⟩, ⟨2, "/api/b", false⟩] (.success "na" "nr")).deliveries := by
  have h := refresh_single_flight ⟨some "at", some "rt"⟩ "rt" "na" "nr"
    [⟨1, "/api/a", false⟩, ⟨2, "/api/b", false⟩] rfl (by decide) (by decide)
  exact ⟨h.1, h.2.1 ⟨1, "/api/a", false⟩ (by decide), h.2.1 ⟨2, "/api/b", false⟩ (by decide)⟩

/-- Claim C5, counterexample to the claim as stated: a request that
receives its 401 while a refresh is in flight is subscribed, but only the
refresh-INITIATING request is ever assigned `_retry = true` (client.ts
line 104); the subscriber callback re-issues the original request object
with only its Authorization header changed, so its `retryFlag` is still
`false`.  A second 401 on that retry therefore re-enters the refresh path:
it is enqueued again if another refresh is in flight, or starts a fresh
refresh otherwise — it does not propagate to the caller. -/
theorem queued_request_not_marked_retry :
    (responseInterceptor ⟨⟨some "at", some "rt"⟩, true, [], false⟩ 401
        ⟨2, "/api/b", false⟩).2 = RespAction.enqueued ∧
    (responseInterceptor ⟨⟨some "na", some "nr"⟩, true, [], false⟩ 401
        ⟨2, "/api/b", false⟩).2 = RespAction.enqueued ∧
    (responseInterceptor ⟨⟨some "na", some "nr"⟩, true, [], false⟩ 401
        ⟨2, "/api/b", false⟩).2 ≠ RespAction.propagate ∧
    (responseInterceptor ⟨⟨some "na", some "nr"⟩, false, [], false⟩ 401
        ⟨2, "/api/b", false⟩).2
      = RespAction.startRefresh ⟨2, "/api/b", true⟩ := by
  decide

/-- Claim C5 (amended): a request 401-ing while a refresh is in progress is
subscribed exactly once for that refresh and, on refresh success, is
re-issued with the new access token; but the queued request is NOT marked
`_retry` — only the refresh-initiating request is, and it is that request
whose second 401 propagates to the caller instead of re-entering the
refresh path. -/
theorem enqueue_once_per_refresh (s : InterceptorState) (q : Request)
    (h1 : s.isRefreshing = true) (hq : q.retryFlag = false)
    (h2 : s.tokens.refresh_token ≠ none) (hu : urlIncludesAuthRefresh q.url = false) :
    responseInterceptor s 401 q
      = ({ s with refreshSubscribers := s.refreshSubscribers ++ [q.id] }, .enqueued) ∧
    (∀ initiator a r,
      Delivery.reissue q.id a ∈
        (completeRefresh { s with refreshSubscribers := s.refreshSubscribers ++ [q.id] }
          initiator (.success a r)).2) ∧
    (∀ s' q', q'.retryFlag = true → responseInterceptor s' 401 q' = (s', .propagate)) := by
  refine ⟨responseInterceptor_enqueues s q h1 hq h2 hu, ?_, ?_⟩
  · intro initiator a r
    refine List.mem_append_left _ ?_
    simp [completeRefresh, onTokenRefreshed]
  · intro s' q' hq'
    exact responseInterceptor_retry_propagates s' q' hq'

/-- Witness for `enqueue_once_per_refresh` at concrete state and
requests. -/
theorem enqueue_once_per_refresh_witness :
    responseInterceptor ⟨⟨some "at", some "rt"⟩, true, [5], false⟩ 401
        ⟨7, "/api/b", false⟩
      = (⟨⟨some "at", some "rt"⟩, true, [5, 7], false⟩, .enqueued) ∧
    Delivery.reissue 7 "na" ∈
      (completeRefresh ⟨⟨some "at", some "rt"⟩, true, [5, 7], false⟩
        ⟨1, "/api/a", true⟩ (.success "na" "nr")).2 ∧
    responseInterceptor ⟨⟨some "na", some "nr"⟩, false, [], false⟩ 401
        ⟨1, "/api/a", true⟩
      = (⟨⟨some "na", some "nr"⟩, false, [], false⟩, .propagate) := by
  have h := enqueue_once_per_refresh ⟨⟨some "at", some "rt"⟩, true, [5], false⟩
    ⟨7, "/api/b", false⟩ rfl rfl (by simp) rfl
  exact ⟨h.1, h.2.1 ⟨1, "/api/a", true⟩ "na" "nr",
    h.2.2 ⟨⟨some "na", some "nr"⟩, false, [], false⟩ ⟨1, "/api/a", true⟩ rfl⟩

/-- Helper: a line made of the `data: ` prefix and a payload is handled by
the payload branch. -/
theorem processLine_data (payload : List Char) :
    processLine ("data: ".toList ++ payload) = dataEvents payload := by
  have hpre : ("data: ".toList).isPrefixOf ("data: ".toList ++ payload) = true := by
    rw [List.isPrefixOf_iff_prefix]
    exact List.prefix_append _ _
  unfold processLine
  rw [if_pos hpre]
  congr 1

/-- Claim C6, counterexample to the claim as stated: the payload
`{"content":""}` parses as JSON and has a `content` field, but the line
fires NO `onChunk` — the source guards with JavaScript truthiness
(`if (parsed.content)`), and the empty string is falsy, so the delta is
dropped rather than forwarded. -/
theorem content_field_empty_drops_chunk :
    jsonParse ("\x7b\"content\":\"\"\x7d".toList)
      = some (Json.obj [("content", Json.str "")]) ∧
    processLine ("data: \x7b\"content\":\"\"\x7d".toList) = [] := ⟨rfl, rfl⟩

/-- Claim C6 (amended): per complete line, in arrival order — a line
without the `data: ` prefix fires nothing; a payload that parses as JSON
fires `onChunk` with its `content` value exactly when that value is
present and truthy (a falsy value such as `""` fires nothing), then fires
`onDone` with its `message` value exactly when `done` and `message` are
both present and truthy; a payload that fails to parse fires `onChunk`
with the raw payload verbatim; the `[DONE]` sentinel fires nothing. -/
theorem line_event_characterization :
    (∀ line, ("data: ".toList).isPrefixOf line = false → processLine line = []) ∧
    (∀ payload parsed, payload ≠ "[DONE]".toList → jsonParse payload = some parsed →
      processLine ("data: ".toList ++ payload) = contentEvents parsed ++ doneEvents parsed) ∧
    (∀ payload, payload ≠ "[DONE]".toList → jsonParse payload = none →
      processLine ("data: ".toList ++ payload)
        = [StreamEvent.chunk (Json.str (String.mk payload))]) ∧
    (∀ parsed c, getField parsed "content" = some c → c.truthy = true →
      contentEvents parsed = [StreamEvent.chunk c]) ∧
    (∀ parsed c, getField parsed "content" = some c → c.truthy = false →
      contentEvents parsed = []) ∧
    (∀ parsed, getField parsed "content" = none → contentEvents parsed = []) ∧
    (∀ parsed d m, getField parsed "done" = some d → getField parsed "message" = some m →
      d.truthy = true → m.truthy = true → doneEvents parsed = [StreamEvent.doneMsg m]) ∧
    (∀ parsed d m, getField parsed "done" = some d → getField parsed "message" = some m →
      (d.truthy && m.truthy) = false → doneEvents parsed = []) ∧
    (∀ parsed, getField parsed "done" = none ∨ getField parsed "message" = none →
      doneEvents parsed = []) ∧
    processLine ("data: [DONE]".toList) = [] := by
  refine ⟨?_, ?_, ?_, ?_, ?_, ?_, ?_, ?_, ?_, rfl⟩
  · intro line h
    have h' : ¬("data: ".toList.isPrefixOf line = true) := by
      rw [h]
      exact Bool.false_ne_true
    unfold processLine
    rw [if_neg h']
  · intro payload parsed hne hp
    rw [processLine_data]
    unfold dataEvents
    rw [if_neg hne, hp]
  · intro payload hne hp
    rw [processLine_data]
    unfold dataEvents
    rw [if_neg hne, hp]
  · intro parsed c hg hc
    simp [contentEvents, hg, hc]
  · intro parsed c hg hc
    simp [contentEvents, hg, hc]
  · intro parsed hg
    simp [contentEvents, hg]
  · intro parsed d m hd hm htd htm
    simp [doneEvents, hd, hm, htd, htm]
  · intro parsed d m hd hm hf
    simp [doneEvents, hd, hm, hf]
  · intro parsed h
    rcases h with h | h
    · simp [doneEvents, h]
    · cases hd : getField parsed "done" <;> simp [doneEvents, hd, h]

/-- Witness for `line_event_characterization` at the concrete line
`data: {"content":"Hello"}`. -/
theorem line_event_characterization_witness :
    processLine ("data: \x7b\"content\":\"Hello\"\x7d".toList)
      = [StreamEvent.chunk (Json.str "Hello")] := by
  have h := line_event_characterization
  have e1 : "data: ".toList ++ "\x7b\"content\":\"Hello\"\x7d".toList
      = "data: \x7b\"content\":\"Hello\"\x7d".toList := by decide
  have e2 := h.2.1 "\x7b\"content\":\"Hello\"\x7d".toList
    (Json.obj [("content", Json.str "Hello")]) (by decide) rfl
  rw [e1] at e2
  rw [e2,
    h.2.2.2.1 (Json.obj [("content", Json.str "Hello")]) (Json.str "Hello") rfl rfl,
    h.2.2.2.2.2.2.2.2.1 (Json.obj [("content", Json.str "Hello")]) (Or.inl rfl)]
  rfl

/-- Helper: the content branch emits nothing or one `onChunk`. -/
theorem contentEvents_shape (parsed : Json) :
    contentEvents parsed = [] ∨ ∃ c, contentEvents parsed = [StreamEvent.chunk c] := by
  cases h : getField parsed "content" with
  | none => exact Or.inl (by simp [contentEvents, h])
  | some c =>
    cases hc : c.truthy with
    | true => exact Or.inr ⟨c, by simp [contentEvents, h, hc]⟩
    | false => exact Or.inl (by simp [contentEvents, h, hc])

/-- Helper: the done branch emits nothing or one `onDone`. -/
theorem doneEvents_shape (parsed : Json) :
    doneEvents parsed = [] ∨ ∃ m, doneEvents parsed = [StreamEvent.doneMsg m] := by
  cases hd : getField parsed "done" with
  | none => exact Or.inl (by simp [doneEvents, hd])
  | some d =>
    cases hm : getField parsed "message" with
    | none => exact Or.inl (by simp [doneEvents, hd, hm])
    | some m =>
      cases ht : d.truthy && m.truthy with
      | true => exact Or.inr ⟨m, by simp [doneEvents, hd, hm, ht]⟩
      | false => exact Or.inl (by simp [doneEvents, hd, hm, ht])

/-- Helper: line processing never invokes `onError`. -/
theorem processLine_no_errorEv (line : List Char) (n m : String) :
    StreamEvent.errorEv n m ∉ processLine line := by
  unfold processLine
  split
  · unfold dataEvents
    split
    · simp
    · cases hp : jsonParse (line.drop 6) with
      | none => simp [hp]
      | some parsed =>
        simp only [hp]
        intro hmem
        rcases List.mem_append.mp hmem with hc | hd
        · rcases contentEvents_shape parsed with h | ⟨c, h⟩ <;> rw [h] at hc <;> simp at hc
        · rcases doneEvents_shape parsed with h | ⟨mm, h⟩ <;> rw [h] at hd <;> simp at hd
  · simp

/-- Helper: one read-loop iteration never invokes `onError`. -/
theorem feedChunk_no_errorEv (buf c : List Char) (n m : String) :
    StreamEvent.errorEv n m ∉ (feedChunk buf c).2 := by
  unfold feedChunk
  intro h
  simp only [List.mem_flatten] at h
  obtain ⟨l, hl, hmem⟩ := h
  obtain ⟨line, _, rfl⟩ := List.mem_map.mp hl
  exact processLine_no_errorEv line n m hmem

/-- Helper: the whole read loop never invokes `onError`. -/
theorem runStreamAux_no_errorEv (chunks : List String) :
    ∀ (buf : List Char) (n m : String),
      StreamEvent.errorEv n m ∉ (runStreamAux buf chunks).2 := by
  induction chunks with
  | nil => intro buf n m; simp [runStreamAux]
  | cons c rest ih =>
    intro buf n m
    simp only [runStreamAux]
    intro h
    rcases List.mem_append.mp h with h | h
    · exact feedChunk_no_errorEv buf c.toList n m h
    · exact ih _ n m h

/-- Claim C9: `streamMessage` returns a cancellation handle whose
invocation aborts the in-flight fetch; the resulting rejection carries the
name `AbortError`, which the trailing `catch` filters out, so cancellation
adds no event to the trace — `onError` never fires on abort — while any
other rejection does surface through `onError`.  Line processing itself
never calls `onError`, so an aborted run's trace contains no error event
at all. -/
theorem abort_no_error :
    (∀ chunks, runStreamWith chunks (some abortFailure) = (runStream chunks).2) ∧
    (∀ chunks (n m : String),
      StreamEvent.errorEv n m ∉ runStreamWith chunks (some abortFailure)) ∧
    (∀ chunks (e : StreamFailure), e.name ≠ "AbortError" →
      StreamEvent.errorEv e.name e.message ∈ runStreamWith chunks (some e)) := by
  refine ⟨?_, ?_, ?_⟩
  · intro chunks
    simp [runStreamWith, catchHandler, abortFailure]
  · intro chunks n m
    simp only [runStreamWith, catchHandler, abortFailure]
    simp only [bne_self_eq_false, Bool.false_eq_true, if_false, List.append_nil]
    exact runStreamAux_no_errorEv chunks [] n m
  · intro chunks e he
    have hc : catchHandler e = [StreamEvent.errorEv e.name e.message] := by
      simp [catchHandler, he]
    simp [runStreamWith, hc]

/-- Witness for `abort_no_error`: a genuine network failure (name
`TypeError`) does reach `onError`. -/
theorem abort_no_error_witness :
    StreamEvent.errorEv "TypeError" "Failed to fetch" ∈
      runStreamWith ["data: [DONE]\n"] (some ⟨"TypeError", "Failed to fetch"⟩) :=
  abort_no_error.2.2 ["data: [DONE]\n"] ⟨"TypeError", "Failed to fetch"⟩ (by decide)

end KB
